import Mathlib

/-!
Verification of the NeuralGrid demo client (`src/SDK_DEMO_PROJECT/client.py`).

The script issues an HTTP POST to a fixed gateway URL, and on a 402
response parses the payment challenge, synthesizes a placeholder payment
signature, and retries the POST once with a `PAYMENT-SIGNATURE` header.

The embedding below models the script's `main` function as a pure function
of the transport environment: the environment supplies the outcome of the
first POST and (if the script issues one) of the retry POST.  The JSON
parser of the `requests` library is external to the repository, so a
response carries both its raw text and the result of parsing that text
(`none` when the text is not valid JSON); `response.json()` is modeled as
reading that field, raising a decode error when it is `none`.
-/

namespace NeuralGrid

/-- JSON values, as produced by `response.json()`.  Objects are association
lists; `lookupJson` below gives Python-dict lookup on them.  Numbers are
modeled as integers (no claim depends on fractional values). -/
inductive Json : Type where
  | null : Json
  | bool (b : Bool) : Json
  | num (n : Int) : Json
  | str (s : String) : Json
  | arr (xs : List Json) : Json
  | obj (kvs : List (String × Json)) : Json

/-- Lookup of a key in a JSON object's association list, i.e. Python
`d.get(k)` restricted to dicts: `none` models Python `None` for an absent
key. -/
def lookupJson (kvs : List (String × Json)) (k : String) : Option Json :=
  (kvs.find? (fun p => p.1 == k)).map (fun p => p.2)

/-- Python exceptions that the script can raise: a transport connection
failure (`requests.exceptions.ConnectionError`), a JSON decode failure from
`response.json()`, an `AttributeError` from calling `.get` on a non-dict,
and a `TypeError` from slicing a non-sliceable value such as `None`. -/
inductive PyExc : Type where
  | connErr : PyExc
  | jsonDecodeErr : PyExc
  | attrErr : PyExc
  | typeErr : PyExc
deriving DecidableEq

/-- Python `data.get(k)` as the script uses it: succeeds with the optional
value when `data` is a dict, raises `AttributeError` otherwise
(`client.py` lines 31-33, 50-53 call `.get` on parsed JSON). -/
def pyDictGet (data : Json) (k : String) : Except PyExc (Option Json) :=
  match data with
  | .obj kvs => .ok (lookupJson kvs k)
  | _ => .error .attrErr

/-- Python `x[:10]` applied to the result of `data.get('recipient')`
(`client.py` line 33): slicing a string or a list succeeds, slicing `None`
or any other JSON scalar raises `TypeError`. -/
def pySliceTen (x : Option Json) : Except PyExc Json :=
  match x with
  | some (.str s) => .ok (.str (s.take 10))
  | some (.arr xs) => .ok (.arr (xs.take 10))
  | _ => .error .typeErr

/-- The extraction `result.get('result', {}).get('response', result)` on
the retry response body (`client.py` line 53): raises `AttributeError`
when the body, or its `result` field, is not a dict. -/
def extractAgent (result : Json) : Except PyExc Json :=
  match result with
  | .obj kvs =>
    match (lookupJson kvs "result").getD (.obj []) with
    | .obj rkvs => .ok ((lookupJson rkvs "response").getD result)
    | _ => .error .attrErr
  | _ => .error .attrErr

/-- Modelled from the spec: "extract the nested result field
(`result.response` if present, else the whole body)".  Used to compare the
code's extraction against the spec's words. -/
def specExtract (body : Json) : Json :=
  match body with
  | .obj kvs =>
    match lookupJson kvs "result" with
    | some (.obj rkvs) =>
      match lookupJson rkvs "response" with
      | some v => v
      | none => body
    | _ => body
  | _ => body

/-- Configured endpoint URL (`client.py` line 6). -/
def GATEWAY_URL : String := "https://neural-grid-iota.vercel.app/api/agent/execute"

/-- Configured agent identifier (`client.py` line 7). -/
def AGENT_ID : String := "atlas-ai"

/-- The task payload built once per invocation (`client.py` lines 15-21). -/
def payload : Json :=
  .obj [("agentId", .str AGENT_ID),
        ("taskType", .str "text-generation"),
        ("parameters", .obj [("prompt",
          .str "Explain the importance of autonomous agents in 3 bullet points.")])]

/-- The simulated transaction hash `"0x" + "b" * 64` (`client.py` line 37). -/
def dummy_tx_hash : String := "0x" ++ String.mk (List.replicate 64 'b')

/-- An HTTP POST issued by the script: target URL, JSON body, extra
headers. -/
structure Request : Type where
  url : String
  body : Json
  headers : List (String × String)

/-- The initial POST (`client.py` line 26): the payload, no extra header. -/
def initialRequest : Request := ⟨GATEWAY_URL, payload, []⟩

/-- The retry POST (`client.py` lines 41-46): the same payload, plus the
`PAYMENT-SIGNATURE` header carrying the simulated transaction hash. -/
def retryRequest : Request :=
  ⟨GATEWAY_URL, payload, [("PAYMENT-SIGNATURE", dummy_tx_hash)]⟩

/-- A server response: status code, raw body text, and the result of
parsing that text as JSON (`none` when the text is not valid JSON, in
which case `response.json()` raises a decode error). -/
structure HttpResponse : Type where
  status : Nat
  text : String
  jsonBody : Option Json

/-- What the transport does for one POST: fail to connect (raising
`requests.exceptions.ConnectionError`) or deliver a response. -/
inductive TransportResult : Type where
  | connFail : TransportResult
  | resp (r : HttpResponse) : TransportResult

/-- `requests.Response.ok`: true iff the status is not in `[400, 600)`.
Note this is strictly weaker than "2xx": 3xx statuses count as ok. -/
def respOk (s : Nat) : Bool := s < 400 || 600 ≤ s

/-- A 2xx status, as the spec's claims use the word "successful". -/
def is2xx (s : Nat) : Prop := 200 ≤ s ∧ s ≤ 299

instance (s : Nat) : Decidable (is2xx s) := by
  unfold is2xx; infer_instance

/-- The terminal print of a run that leaves the `try` block normally:
retry success output (`client.py` line 53), plain success (line 59),
retry failure (line 56), or unexpected status (line 61). -/
inductive NormalOutcome : Type where
  | agentOutput (v : Json) : NormalOutcome
  | plainSuccess (v : Json) : NormalOutcome
  | execFailed (t : String) : NormalOutcome
  | unexpectedStatus (s : Nat) : NormalOutcome

/-- How a run ends after the `try/except`: a normal print, the connection
error message of the `except` clause (`client.py` lines 63-64), or an
uncaught exception propagating out of `main`. -/
inductive Outcome : Type where
  | done (o : NormalOutcome) : Outcome
  | connCaught : Outcome
  | crash (e : PyExc) : Outcome

/-- Observable effects of the `try` block body: the POSTs issued in order,
the value shown on the `Price:` line (`some a` once printed, with `a` the
optional amount), the value shown on the `Pay To:` line, and how the block
ended (normally or with an exception). -/
structure TryResult : Type where
  requests : List Request
  shownAmount : Option (Option Json)
  shownRecipient : Option Json
  result : Except PyExc NormalOutcome

/-- The body of the `try` block of `main` (`client.py` lines 24-61),
as a function of the transport's answers to the first POST and (when
issued) the retry POST. -/
def tryBody (first second : TransportResult) : TryResult :=
  match first with
  | .connFail => ⟨[initialRequest], none, none, .error .connErr⟩
  | .resp r =>
    if r.status = 402 then
      match r.jsonBody with
      | none => ⟨[initialRequest], none, none, .error .jsonDecodeErr⟩
      | some data =>
        match pyDictGet data "amount" with
        | .error e => ⟨[initialRequest], none, none, .error e⟩
        | .ok amt =>
          match pyDictGet data "recipient" with
          | .error e => ⟨[initialRequest], some amt, none, .error e⟩
          | .ok rcp =>
            match pySliceTen rcp with
            | .error e => ⟨[initialRequest], some amt, none, .error e⟩
            | .ok shown =>
            match second with
            | .connFail =>
              ⟨[initialRequest, retryRequest], some amt, some shown, .error .connErr⟩
            | .resp fr =>
              if respOk fr.status then
                match fr.jsonBody with
                | none =>
                  ⟨[initialRequest, retryRequest], some amt, some shown,
                    .error .jsonDecodeErr⟩
                | some result =>
                  match extractAgent result with
                  | .error e =>
                    ⟨[initialRequest, retryRequest], some amt, some shown, .error e⟩
                  | .ok v =>
                    ⟨[initialRequest, retryRequest], some amt, some shown,
                      .ok (.agentOutput v)⟩
              else
                ⟨[initialRequest, retryRequest], some amt, some shown,
                  .ok (.execFailed fr.text)⟩
    else if respOk r.status then
      match r.jsonBody with
      | none => ⟨[initialRequest], none, none, .error .jsonDecodeErr⟩
      | some v => ⟨[initialRequest], none, none, .ok (.plainSuccess v)⟩
    else ⟨[initialRequest], none, none, .ok (.unexpectedStatus r.status)⟩

/-- Observable effects of one whole run of `main`. -/
structure RunTrace : Type where
  requests : List Request
  shownAmount : Option (Option Json)
  shownRecipient : Option Json
  outcome : Outcome

/-- The whole of `main` (`client.py` lines 9-64): the `try` block wrapped
in the handler that catches exactly `requests.exceptions.ConnectionError`
(lines 63-64); every other exception propagates. -/
def main (first second : TransportResult) : RunTrace :=
  let t := tryBody first second
  ⟨t.requests, t.shownAmount, t.shownRecipient,
    match t.result with
    | .ok o => .done o
    | .error .connErr => .connCaught
    | .error e => .crash e⟩

/-- The requests issued by `main` are those issued inside the `try` block. -/
theorem main_requests_eq (first second : TransportResult) :
    (main first second).requests = (tryBody first second).requests := rfl

/-- Every run issues the initial POST, and at most the one retry POST:
the request list is `[initialRequest]` or `[initialRequest, retryRequest]`. -/
theorem tryBody_requests (first second : TransportResult) :
    (tryBody first second).requests = [initialRequest] ∨
    (tryBody first second).requests = [initialRequest, retryRequest] := by
  unfold tryBody
  repeat' split
  all_goals first | exact Or.inl rfl | exact Or.inr rfl

/-- When a run issues a second POST, that POST is `retryRequest`. -/
theorem second_request_is_retry (first second : TransportResult) (r : Request)
    (h : (main first second).requests = [initialRequest, r]) :
    r = retryRequest := by
  rw [main_requests_eq] at h
  rcases tryBody_requests first second with hh | hh <;> rw [hh] at h
  · simp at h
  · simp only [List.cons.injEq, and_true, true_and] at h
    exact h.symm

/-- C7: a connection failure on the first request is caught and reported
as a connection error, and no second request is issued. -/
theorem C7_conn_fail_first (second : TransportResult) :
    (main .connFail second).requests = [initialRequest] ∧
    (main .connFail second).outcome = .connCaught :=
  ⟨rfl, rfl⟩

/-- C6: a 2xx initial response with a JSON body is returned directly as
the parsed body (no `result.response` extraction), and no second request
is issued, whatever the transport would answer to a retry. -/
theorem C6_initial_success (st : Nat) (t : String) (v : Json)
    (second : TransportResult) (h : is2xx st) :
    (main (.resp ⟨st, t, some v⟩) second).requests = [initialRequest] ∧
    (main (.resp ⟨st, t, some v⟩) second).outcome = .done (.plainSuccess v) := by
  obtain ⟨h1, h2⟩ := h
  have h402 : st ≠ 402 := by omega
  have hok : respOk st = true := by
    simp only [respOk, Bool.or_eq_true, decide_eq_true_eq]
    omega
  constructor <;> simp [main, tryBody, h402, hok]

/-- C6 witness: a 200 response whose body even contains a
`result.response` field is returned whole, untouched. -/
theorem C6_witness :
    is2xx 200 ∧
    (main (.resp ⟨200, "", some (Json.obj [("result",
        Json.obj [("response", Json.str "x")])])⟩) .connFail).outcome
      = .done (.plainSuccess (Json.obj [("result",
        Json.obj [("response", Json.str "x")])])) :=
  ⟨by decide,
   (C6_initial_success 200 "" (Json.obj [("result",
      Json.obj [("response", Json.str "x")])]) .connFail (by decide)).2⟩

/-- C5 counterexample: a 300 initial response is neither 2xx nor 402, yet
the script treats it as success (`response.ok` is status < 400), parses
the body and prints it — it does not fail with an unexpected-status
report carrying 300. -/
theorem C5_cex :
    (main (.resp ⟨300, "", some Json.null⟩) .connFail).outcome
      = .done (.plainSuccess Json.null) ∧
    (main (.resp ⟨300, "", some Json.null⟩) .connFail).requests = [initialRequest] ∧
    ¬ is2xx 300 ∧ (300 : Nat) ≠ 402 ∧
    Outcome.done (.plainSuccess Json.null) ≠ Outcome.done (.unexpectedStatus 300) :=
  ⟨rfl, rfl, by decide, by decide,
   fun h => NormalOutcome.noConfusion (Outcome.done.inj h)⟩

/-- C5 amended: an initial response with status in `[400, 600)` other
than 402 is reported as an unexpected status carrying that code, and no
retry is issued. -/
theorem C5_amended (st : Nat) (t : String) (jb : Option Json)
    (second : TransportResult) (h : 400 ≤ st ∧ st < 600 ∧ st ≠ 402) :
    (main (.resp ⟨st, t, jb⟩) second).requests = [initialRequest] ∧
    (main (.resp ⟨st, t, jb⟩) second).outcome = .done (.unexpectedStatus st) := by
  obtain ⟨h1, h2, h3⟩ := h
  have hok : respOk st = false := by
    simp only [respOk, Bool.or_eq_false_iff, decide_eq_false_iff_not]
    omega
  constructor <;> simp [main, tryBody, h3, hok]

/-- C5 amended witness: a 500 initial response. -/
theorem C5_amended_witness :
    (400 ≤ 500 ∧ 500 < 600 ∧ (500 : Nat) ≠ 402) ∧
    (main (.resp ⟨500, "boom", none⟩) .connFail).outcome
      = .done (.unexpectedStatus 500) :=
  ⟨by decide, (C5_amended 500 "boom" none .connFail (by decide)).2⟩

/-- C2 evaluation: on a 402 whose JSON body has `amount` but no
`recipient`, the script prints the amount, then crashes with a
`TypeError` slicing `None` — no payment proof is synthesized and no retry
is issued.  By contrast a 402 body with a `recipient` but no `amount` is
tolerated: the retry is issued (here the retry's transport fails, which
is caught). -/
theorem C2_missing_recipient_crashes :
    (main (.resp ⟨402, "", some (Json.obj [("amount", Json.num 100)])⟩)
        .connFail).requests = [initialRequest] ∧
    (main (.resp ⟨402, "", some (Json.obj [("amount", Json.num 100)])⟩)
        .connFail).outcome = .crash .typeErr ∧
    (main (.resp ⟨402, "", some (Json.obj [("amount", Json.num 100)])⟩)
        .connFail).shownAmount = some (some (Json.num 100)) ∧
    (main (.resp ⟨402, "", some (Json.obj [("amount", Json.num 100)])⟩)
        .connFail).shownRecipient = none ∧
    (main (.resp ⟨402, "", some (Json.obj [("recipient", Json.str "0xFF")])⟩)
        .connFail).requests = [initialRequest, retryRequest] ∧
    (main (.resp ⟨402, "", some (Json.obj [("recipient", Json.str "0xFF")])⟩)
        .connFail).outcome = .connCaught :=
  ⟨rfl, rfl, rfl, rfl, rfl, rfl⟩

/-- C8: on a 402 whose JSON body holds a string `recipient`, the value
displayed on the `Pay To:` line is the first 10 characters of that
string, whatever the transport answers to the retry. -/
theorem C8_recipient_display (kvs : List (String × Json)) (s t : String)
    (second : TransportResult)
    (h : lookupJson kvs "recipient" = some (.str s)) :
    (main (.resp ⟨402, t, some (.obj kvs)⟩) second).shownRecipient
      = some (.str (s.take 10)) := by
  cases second with
  | connFail => simp [main, tryBody, pyDictGet, pySliceTen, h]
  | resp fr =>
    simp only [main, tryBody, pyDictGet, pySliceTen, h]
    repeat' split
    all_goals first | rfl | simp_all

/-- C8 witness: the spec's example recipient, displayed as its 10-character
head. -/
theorem C8_witness :
    lookupJson [("amount", Json.num 100),
        ("recipient", Json.str "0xABCDEF1234567890")] "recipient"
      = some (.str "0xABCDEF1234567890") ∧
    (main (.resp ⟨402, "", some (.obj [("amount", Json.num 100),
        ("recipient", Json.str "0xABCDEF1234567890")])⟩) .connFail).shownRecipient
      = some (.str "0xABCDEF12") :=
  ⟨rfl, by
    have hs : "0xABCDEF1234567890".take 10 = "0xABCDEF12" := by decide
    rw [C8_recipient_display [("amount", Json.num 100),
        ("recipient", Json.str "0xABCDEF1234567890")] "0xABCDEF1234567890" ""
        .connFail rfl, hs]⟩

/-- The code's retry-body extraction agrees with the spec's description
("`result.response` if present, else the whole body") whenever the retry
body is a JSON object whose `result` field, if present, is itself an
object. -/
theorem extractAgent_eq_spec (bkvs : List (String × Json))
    (h : lookupJson bkvs "result" = none ∨
         ∃ rkvs, lookupJson bkvs "result" = some (.obj rkvs)) :
    extractAgent (.obj bkvs) = .ok (specExtract (.obj bkvs)) := by
  rcases h with h | ⟨rkvs, h⟩
  · simp only [extractAgent, specExtract, h, Option.getD_none]
    simp [lookupJson]
  · cases hr : lookupJson rkvs "response" <;>
      simp [extractAgent, specExtract, h, hr]

/-- C1 counterexample: a well-formed 402 challenge followed by a 200 retry
response whose body is `{"result": 5}`.  The claim says the printed value
is the whole retry body (since `result.response` is absent); the script
instead crashes with an `AttributeError` calling `.get` on the number 5. -/
theorem C1_cex :
    (main (.resp ⟨402, "", some (.obj [("amount", Json.num 100),
          ("recipient", Json.str "0xABCDEF1234567890")])⟩)
        (.resp ⟨200, "", some (.obj [("result", Json.num 5)])⟩)).outcome
      = .crash .attrErr ∧
    Outcome.crash .attrErr
      ≠ .done (.agentOutput (Json.obj [("result", Json.num 5)])) :=
  ⟨rfl, fun h => Outcome.noConfusion h⟩

/-- C1 amended: a 402 response whose JSON body holds a string `recipient`,
followed by a 2xx retry response whose JSON body is an object whose
`result` field (if present) is itself an object, issues exactly two POSTs;
the second POST carries the same body plus the `PAYMENT-SIGNATURE` header,
and the printed agent result is `result.response` when present, else the
whole retry body. -/
theorem C1_amended (kvs bkvs : List (String × Json)) (s t1 t2 : String)
    (st : Nat)
    (hrcp : lookupJson kvs "recipient" = some (.str s))
    (hst : is2xx st)
    (hres : lookupJson bkvs "result" = none ∨
            ∃ rkvs, lookupJson bkvs "result" = some (.obj rkvs)) :
    (main (.resp ⟨402, t1, some (.obj kvs)⟩)
        (.resp ⟨st, t2, some (.obj bkvs)⟩)).requests
      = [initialRequest, retryRequest] ∧
    retryRequest.body = initialRequest.body ∧
    retryRequest.headers = [("PAYMENT-SIGNATURE", dummy_tx_hash)] ∧
    (main (.resp ⟨402, t1, some (.obj kvs)⟩)
        (.resp ⟨st, t2, some (.obj bkvs)⟩)).outcome
      = .done (.agentOutput (specExtract (.obj bkvs))) := by
  obtain ⟨h1, h2⟩ := hst
  have hok : respOk st = true := by
    simp only [respOk, Bool.or_eq_true, decide_eq_true_eq]
    omega
  refine ⟨?_, rfl, rfl, ?_⟩ <;>
    simp [main, tryBody, pyDictGet, pySliceTen, hrcp, hok,
      extractAgent_eq_spec bkvs hres]

/-- C1 amended witness: challenge `{"amount": 100, "recipient":
"0xABCDEF1234567890"}`, retry body `{"result": {"response": "done"}}`;
two POSTs, and the printed result is the nested `"done"`. -/
theorem C1_amended_witness :
    lookupJson [("amount", Json.num 100),
        ("recipient", Json.str "0xABCDEF1234567890")] "recipient"
      = some (.str "0xABCDEF1234567890") ∧
    is2xx 200 ∧
    (main (.resp ⟨402, "", some (.obj [("amount", Json.num 100),
          ("recipient", Json.str "0xABCDEF1234567890")])⟩)
        (.resp ⟨200, "", some (.obj [("result",
          Json.obj [("response", Json.str "done")])])⟩)).outcome
      = .done (.agentOutput (Json.str "done")) :=
  ⟨rfl, by decide,
   (C1_amended [("amount", Json.num 100),
        ("recipient", Json.str "0xABCDEF1234567890")]
      [("result", Json.obj [("response", Json.str "done")])]
      "0xABCDEF1234567890" "" "" 200 rfl (by decide)
      (Or.inr ⟨[("response", Json.str "done")], rfl⟩)).2.2.2⟩

/-- C4 counterexample: a well-formed 402 challenge followed by a 300 retry
response.  300 is not 2xx, yet `final_response.ok` holds (status < 400),
so the script takes the success branch and prints the extracted body — it
does not fail with the retry's raw text. -/
theorem C4_cex :
    (main (.resp ⟨402, "", some (.obj [("amount", Json.num 100),
          ("recipient", Json.str "0xABCDEF1234567890")])⟩)
        (.resp ⟨300, "moved", some (.obj [])⟩)).outcome
      = .done (.agentOutput (Json.obj [])) ∧
    ¬ is2xx 300 ∧
    Outcome.done (.agentOutput (Json.obj []))
      ≠ .done (.execFailed "moved") :=
  ⟨rfl, by decide, fun h => NormalOutcome.noConfusion (Outcome.done.inj h)⟩

/-- C4 amended: a 402 response whose JSON body holds a string `recipient`,
followed by a retry response with status in `[400, 600)` (including a
second 402), ends with the retry failure report carrying the retry's raw
body text, after exactly two POSTs — the flow is bounded to one retry. -/
theorem C4_amended (kvs : List (String × Json)) (s t1 t2 : String)
    (st : Nat) (jb : Option Json)
    (hrcp : lookupJson kvs "recipient" = some (.str s))
    (hst : 400 ≤ st ∧ st < 600) :
    (main (.resp ⟨402, t1, some (.obj kvs)⟩) (.resp ⟨st, t2, jb⟩)).requests
      = [initialRequest, retryRequest] ∧
    (main (.resp ⟨402, t1, some (.obj kvs)⟩) (.resp ⟨st, t2, jb⟩)).outcome
      = .done (.execFailed t2) := by
  obtain ⟨h1, h2⟩ := hst
  have hok : respOk st = false := by
    simp only [respOk, Bool.or_eq_false_iff, decide_eq_false_iff_not]
    omega
  constructor <;>
    simp [main, tryBody, pyDictGet, pySliceTen, hrcp, hok]

/-- C4 amended witness: a second 402 on the retry is reported as a retry
failure with the raw body text, and no third request follows. -/
theorem C4_amended_witness :
    lookupJson [("amount", Json.num 100), ("recipient", Json.str "0xFF")]
        "recipient" = some (.str "0xFF") ∧
    (400 ≤ 402 ∧ 402 < 600) ∧
    (main (.resp ⟨402, "", some (.obj [("amount", Json.num 100),
          ("recipient", Json.str "0xFF")])⟩)
        (.resp ⟨402, "pay again", none⟩)).requests
      = [initialRequest, retryRequest] ∧
    (main (.resp ⟨402, "", some (.obj [("amount", Json.num 100),
          ("recipient", Json.str "0xFF")])⟩)
        (.resp ⟨402, "pay again", none⟩)).outcome
      = .done (.execFailed "pay again") :=
  ⟨rfl, by decide,
   (C4_amended [("amount", Json.num 100), ("recipient", Json.str "0xFF")]
      "0xFF" "" "pay again" 402 none rfl (by decide)).1,
   (C4_amended [("amount", Json.num 100), ("recipient", Json.str "0xFF")]
      "0xFF" "" "pay again" 402 none rfl (by decide)).2⟩

/-- C3 counterexample: a 200 initial response whose body is not valid
JSON.  `response.json()` raises a decode error, which the `except` clause
(which catches only connection errors) does not handle, so the error
propagates out of `main` as an uncaught fault. -/
theorem C3_cex :
    (main (.resp ⟨200, "oops", none⟩) .connFail).outcome
      = .crash .jsonDecodeErr ∧
    Outcome.crash .jsonDecodeErr ≠ .connCaught :=
  ⟨rfl, fun h => Outcome.noConfusion h⟩

/-- C3 amended: the top-level handler catches exactly the connection
errors.  Whenever the `try` block raises, the run ends with the printed
connection-error message precisely when the exception is a connection
error; every other exception (JSON decode failures, attribute and type
errors from the challenge fields) propagates uncaught. -/
theorem C3_amended (first second : TransportResult) (e : PyExc)
    (h : (tryBody first second).result = .error e) :
    ((main first second).outcome = .connCaught ↔ e = .connErr) ∧
    (e ≠ .connErr → (main first second).outcome = .crash e) := by
  cases e <;> simp [main, h]

/-- C3 amended witness: a connection failure on the first request raises a
connection error, which the handler turns into the printed message. -/
theorem C3_amended_witness :
    (tryBody .connFail .connFail).result = .error .connErr ∧
    ((main .connFail .connFail).outcome = .connCaught ↔
      PyExc.connErr = PyExc.connErr) :=
  ⟨rfl, (C3_amended .connFail .connFail .connErr rfl).1⟩

/-- C9: the payment signature is a fixed placeholder.  Any two runs that
issue a second POST — whatever their 402 challenge bodies were — attach
identical headers to it, namely the single `PAYMENT-SIGNATURE` header
whose value is the constant string `"0x"` followed by 64 `'b'`
characters. -/
theorem C9_constant_signature (f1 s1 f2 s2 : TransportResult)
    (r1 r2 : Request)
    (h1 : (main f1 s1).requests = [initialRequest, r1])
    (h2 : (main f2 s2).requests = [initialRequest, r2]) :
    r1.headers = r2.headers ∧
    r1.headers = [("PAYMENT-SIGNATURE", "0x" ++ String.mk (List.replicate 64 'b'))] := by
  rw [second_request_is_retry f1 s1 r1 h1, second_request_is_retry f2 s2 r2 h2]
  exact ⟨rfl, rfl⟩

/-- C9 witness: two runs with different challenge amounts and recipients
issue retries, whose headers the theorem equates with the constant. -/
theorem C9_witness :
    (main (.resp ⟨402, "", some (.obj [("amount", Json.num 100),
          ("recipient", Json.str "0xAAAA")])⟩) .connFail).requests
      = [initialRequest, retryRequest] ∧
    (main (.resp ⟨402, "", some (.obj [("amount", Json.num 999),
          ("recipient", Json.str "0xBBBB")])⟩)
        (.resp ⟨500, "", none⟩)).requests
      = [initialRequest, retryRequest] ∧
    retryRequest.headers
      = [("PAYMENT-SIGNATURE", "0x" ++ String.mk (List.replicate 64 'b'))] :=
  ⟨rfl, rfl,
   (C9_constant_signature
      (.resp ⟨402, "", some (.obj [("amount", Json.num 100),
        ("recipient", Json.str "0xAAAA")])⟩) .connFail
      (.resp ⟨402, "", some (.obj [("amount", Json.num 999),
        ("recipient", Json.str "0xBBBB")])⟩) (.resp ⟨500, "", none⟩)
      retryRequest retryRequest rfl rfl).2⟩

/-- C10: a connection failure on the retry request is caught by the same
top-level handler as a first-request failure and reported as a connection
error — not as a retry-failure report and not as an uncaught fault. -/
theorem C10_retry_conn_fail (kvs : List (String × Json)) (s t1 : String)
    (hrcp : lookupJson kvs "recipient" = some (.str s)) :
    (main (.resp ⟨402, t1, some (.obj kvs)⟩) .connFail).requests
      = [initialRequest, retryRequest] ∧
    (main (.resp ⟨402, t1, some (.obj kvs)⟩) .connFail).outcome = .connCaught ∧
    (main .connFail .connFail).outcome = .connCaught := by
  refine ⟨?_, ?_, rfl⟩ <;>
    simp [main, tryBody, pyDictGet, pySliceTen, hrcp]

/-- C10 witness: a concrete 402 challenge whose retry hits a connection
failure. -/
theorem C10_witness :
    lookupJson [("amount", Json.num 100), ("recipient", Json.str "0xFF")]
        "recipient" = some (.str "0xFF") ∧
    (main (.resp ⟨402, "", some (.obj [("amount", Json.num 100),
          ("recipient", Json.str "0xFF")])⟩) .connFail).outcome = .connCaught :=
  ⟨rfl,
   (C10_retry_conn_fail [("amount", Json.num 100),
      ("recipient", Json.str "0xFF")] "0xFF" "" rfl).2.1⟩

end NeuralGrid
